import Mathlib

/-!
Shallow embedding of the requests_client library (dskrypa/requests_client), covering the
URL-composition, construction, request-dispatch, logging, rate-limiting and session-lifecycle
logic of src/requests_client/client.py, base.py, async_client.py and utils.py, together with
theorems settling the frozen claims about that code.

Python strings are modelled by Lean String values, with the handful of needed operations
implemented over the underlying character list so that everything evaluates inside the kernel.
Python None is modelled by Option.none; Python truthiness of strings, ints and lists is made
explicit at each use site.
-/

/-- Python value[1:] on a string: drop the first n characters. -/
def strDrop (s : String) (n : Nat) : String := ⟨s.data.drop n⟩

/-- Longest prefix of characters satisfying p (used to model the regex [a-zA-Z]+). -/
def strTakeWhile (p : Char → Bool) (s : String) : String := ⟨s.data.takeWhile p⟩

/-- Python str.startswith. -/
def strStartsWith (s pre : String) : Bool := pre.data.isPrefixOf s.data

/-- Python str.endswith. -/
def strEndsWith (s suf : String) : Bool := suf.data.isSuffixOf s.data

/-- Python membership test ch in s for a single character. -/
def strContains (s : String) (c : Char) : Bool := s.data.contains c

/-- Python str.lower restricted to ASCII, as applied by urlparse to scheme and hostname. -/
def strToLower (s : String) : String := ⟨s.data.map Char.toLower⟩

/-- Number of characters in the string (Python len on str). -/
def strLen (s : String) : Nat := s.data.length

/-- Python int(s) for a non-negative decimal numeral, returning none when s is not one.
The library only reaches this through urlparse.port on valid port substrings. -/
def strToNatOpt (s : String) : Option Nat :=
  if s.data ≠ [] ∧ s.data.all Char.isDigit then
    some (s.data.foldl (fun n c => n * 10 + (c.toNat - 48)) 0)
  else none

def natToStrAux : Nat → Nat → List Char
  | 0, _ => []
  | fuel + 1, n => if n < 10 then [Nat.digitChar n] else natToStrAux fuel (n / 10) ++ [Nat.digitChar (n % 10)]

/-- Python str(n) for a natural number. -/
def natToStr (n : Nat) : String := ⟨natToStrAux (n + 1) n⟩

/-- Python str(i) for an integer, as used when formatting the port into the base URL. -/
def intToStr (i : Int) : String :=
  match i with
  | Int.ofNat n => natToStr n
  | Int.negSucc n => "-" ++ natToStr (n + 1)

/-- Models urllib.parse.urlencode(params, True) for string-valued pairs whose keys and values
contain no characters needing percent-escaping (the only form the claims exercise): pairs are
rendered key=value and joined with ampersands. -/
def urlencode (params : List (String × String)) : String :=
  String.intercalate "&" (params.map (fun kv => kv.1 ++ "=" ++ kv.2))

/-- format_path_prefix from src/requests_client/utils.py lines 105-109, under a shortened
name: a falsy value is stored as the empty string; otherwise one leading slash is stripped and
a trailing slash is appended unless already present. -/
def format_path_pfx (value : Option String) : String :=
  match value with
  | none => ""
  | some v =>
    if v = "" then ""
    else
      let v := if strStartsWith v "/" then strDrop v 1 else v
      if strEndsWith v "/" then v else v ++ "/"

/-- The mutable URL-relevant state of a RequestsClient / BaseClient instance.  scheme, host,
port and pathPfx are the four UrlPart descriptor fields (pathPfx models the path_prefix
attribute); urlFmtCache models the cached_property _url_fmt slot in the
instance dict, which the UrlPart descriptor deletes on every write.  raiseErrors, logParams
and excConfigured model the raise_errors, log_params and exc attributes (exc is tracked only
as whether a factory is configured). -/
structure ClientState where
  scheme : String
  host : Option String
  port : Option Int
  pathPfx : String
  raiseErrors : Bool
  logParams : Bool
  excConfigured : Bool
  urlFmtCache : Option String
deriving DecidableEq

/-- UrlPart.__set__ for scheme (no formatter): store the value and drop the cached _url_fmt. -/
def setScheme (c : ClientState) (v : String) : ClientState :=
  { c with scheme := v, urlFmtCache := none }

/-- UrlPart.__set__ for host (no formatter). -/
def setHost (c : ClientState) (v : Option String) : ClientState :=
  { c with host := v, urlFmtCache := none }

/-- UrlPart.__set__ for port, whose formatter is int(v) if v is not None else v; on an Int
model the conversion is the identity. -/
def setPort (c : ClientState) (v : Option Int) : ClientState :=
  { c with port := v, urlFmtCache := none }

/-- UrlPart.__set__ for path_prefix, whose formatter is format_path_prefix. -/
def setPathPfx (c : ClientState) (v : Option String) : ClientState :=
  { c with pathPfx := format_path_pfx v, urlFmtCache := none }

/-- Python rendering of the host field inside a format string (None prints as the text None). -/
def hostStr (h : Option String) : String :=
  match h with
  | some s => s
  | none => "None"

/-- Body of the _url_fmt cached property (client.py lines 127-130, base.py lines 67-70): the
format string scheme://host[:port]/ with the port segment present exactly when the port is
truthy.  The trailing placeholder of the Python format string is modelled by returning the
prefix the placeholder is appended to. -/
def computeUrlFmt (c : ClientState) : String :=
  let hp :=
    match c.port with
    | some p => if p ≠ 0 then hostStr c.host ++ ":" ++ intToStr p else hostStr c.host
    | none => hostStr c.host
  c.scheme ++ "://" ++ hp ++ "/"

/-- Reading the _url_fmt cached property: return the cached string if present, else compute
and cache it.  Returns the value together with the updated instance state. -/
def getUrlFmt (c : ClientState) : String × ClientState :=
  match c.urlFmtCache with
  | some s => (s, c)
  | none => (computeUrlFmt c, { c with urlFmtCache := some (computeUrlFmt c) })

/-- RequestsClient.url_for (client.py lines 132-143): strip one leading slash from path,
format it (prefixed with path_prefix when relative) into _url_fmt, then append the encoded
query string when params is truthy.  Note this version has no special case for absolute
http(s) URLs. -/
def RequestsClient.url_for (c : ClientState) (path : String)
    (params : List (String × String)) (relative : Bool) : String × ClientState :=
  let path := if strStartsWith path "/" then strDrop path 1 else path
  let r := getUrlFmt c
  let url := r.1 ++ (if relative then r.2.pathPfx ++ path else path)
  let url := if params ≠ [] then url ++ "?" ++ urlencode params else url
  (url, r.2)

/-- BaseClient.url_for (base.py lines 72-86): like RequestsClient.url_for, but when relative
is false and path already begins with http:// or https:// the path is used unchanged as the
base (without touching _url_fmt); params are appended in every case. -/
def BaseClient.url_for (c : ClientState) (path : String)
    (params : List (String × String)) (relative : Bool) : String × ClientState :=
  let r :=
    if ¬relative ∧ (strStartsWith path "http://" ∨ strStartsWith path "https://") then (path, c)
    else
      let path := if strStartsWith path "/" then strDrop path 1 else path
      let g := getUrlFmt c
      (g.1 ++ (if relative then g.2.pathPfx ++ path else path), g.2)
  let url := if params ≠ [] then r.1 ++ "?" ++ urlencode params else r.1
  (url, r.2)

/-- The construction-time guard re.match applied to host_or_url in client.py line 92 and
base.py line 42: the string begins with one or more ASCII letters followed by the three
characters of a scheme separator. -/
def matchesSchemeRe (s : String) : Bool :=
  let letters := strTakeWhile Char.isAlpha s
  letters ≠ "" && strStartsWith (strDrop s (strLen letters)) "://"

/-- The components of urllib.parse.urlparse the constructors read. -/
structure ParsedUrl where
  scheme : String
  hostname : Option String
  port : Option Int
  path : String
deriving DecidableEq

/-- Models urllib.parse.urlparse restricted to inputs of the shape letters://netloc/path with
no userinfo, IPv6 brackets, query or fragment, which are the only shapes this repository feeds
it on the branch guarded by matchesSchemeRe: the scheme and hostname are lowercased, an empty
hostname reads as None, and the port is the decimal numeral after the first colon of the
netloc (None when absent or empty). -/
def pyUrlparse (s : String) : ParsedUrl :=
  let scheme := strTakeWhile Char.isAlpha s
  let rest := strDrop s (strLen scheme + 3)
  let netloc := strTakeWhile (fun ch => ch ≠ '/') rest
  let path := strDrop rest (strLen netloc)
  let hostPart := strTakeWhile (fun ch => ch ≠ ':') netloc
  { scheme := strToLower scheme
    hostname := if hostPart = "" then none else some (strToLower hostPart)
    port :=
      if strContains netloc ':' then
        (strToNatOpt (strDrop netloc (strLen hostPart + 1))).map Int.ofNat
      else none
    path := path }

/-- Python a or b for optional strings, where None and the empty string are falsy. -/
def strOr (a b : Option String) : Option String :=
  match a with
  | some s => if s = "" then b else some s
  | none => b

/-- Python a or b for optional ints, where None and 0 are falsy. -/
def intOr (a b : Option Int) : Option Int :=
  match a with
  | some p => if p = 0 then b else some p
  | none => b

/-- Python truthiness of the port argument (None and 0 are falsy). -/
def pyTruthyPort (p : Option Int) : Bool :=
  match p with
  | some v => v ≠ 0
  | none => false

/-- The tail of __init__ shared by both branches: the writes self.scheme = scheme or http,
self.port = port, self.path_prefix = path_prefix, in source order, each through its UrlPart
descriptor. -/
def finishInit (c : ClientState) (scheme : Option String) (port : Option Int)
    (ppfx : Option String) : ClientState :=
  setPathPfx (setPort (setScheme c ((strOr scheme (some "http")).getD "http")) port) ppfx

/-- RequestsClient.__init__ / BaseClient.__init__ (client.py lines 92-106, base.py lines
42-55) restricted to the URL-relevant arguments: when host_or_url is truthy and begins with a
scheme it is parsed as a URL whose components seed host, port, scheme and path_prefix unless
explicitly overridden (with nopath discarding the parsed path); otherwise host_or_url is the
host, and a host containing a colon together with a truthy port argument is rejected with
ValueError.  raise_errors, log_params and exc are stored unchanged. -/
def initClient (host_or_url : String) (port : Option Int) (scheme : Option String)
    (ppfx : Option String) (raise_errors : Bool) (excConfigured : Bool)
    (log_params : Bool) (nopath : Bool) : Except String ClientState :=
  let c0 : ClientState :=
    { scheme := "", host := none, port := none, pathPfx := "", raiseErrors := raise_errors,
      logParams := log_params, excConfigured := excConfigured, urlFmtCache := none }
  if host_or_url ≠ "" ∧ matchesSchemeRe host_or_url then
    let parsed := pyUrlparse host_or_url
    let c1 := setHost c0 parsed.hostname
    let port := intOr port parsed.port
    let scheme := strOr scheme (some parsed.scheme)
    let ppfx := if nopath then ppfx else strOr ppfx (some parsed.path)
    Except.ok (finishInit c1 scheme port ppfx)
  else
    let c1 := setHost c0 (some host_or_url)
    if host_or_url ≠ "" ∧ strContains host_or_url ':' ∧ pyTruthyPort port then
      Except.error ("Conflicting arguments: port provided twice (host_or_url=" ++ host_or_url ++ ")")
    else
      Except.ok (finishInit c1 scheme port ppfx)

/-- The first positional argument handed to a configured error factory: either the original
transport exception (modelled by a numeric identity) or the failing response (modelled by its
status code). -/
inductive Cause
  | failure (e : Nat)
  | response (status : Nat)
deriving DecidableEq

/-- What the transport call session.request(method, url, ...) did: raised a transport-level
RequestException / HTTPError (modelled by a numeric identity), or returned a response with the
given status code. -/
inductive DispatchOutcome
  | error (e : Nat)
  | success (status : Nat)
deriving DecidableEq

/-- How one request() call ends: the response is returned, exc(cause, url) is raised, the
original transport exception propagates unchanged, or the native raise_for_status HTTPError
for the given status is raised. -/
inductive RequestResult
  | ok (status : Nat)
  | excRaised (cause : Cause) (url : String)
  | nativeError (e : Nat)
  | httpError (status : Nat) (url : String)
deriving DecidableEq

/-- Models Response.raise_for_status of the transport libraries (requests and httpx): raises
an HTTPError exactly when the status code is in [400, 600), else returns the response. -/
def raise_for_status (status : Nat) (url : String) : RequestResult :=
  if 400 ≤ status ∧ status < 600 then RequestResult.httpError status url else RequestResult.ok status

/-- The tri-state override pattern x or (x is None and self.x) used for raise_errors
(client.py line 226, async_client.py line 186) and log_params (client.py line 185): an
explicit per-call Boolean wins, else the client default applies. -/
def resolveOverride (override : Option Bool) (dflt : Bool) : Bool :=
  match override with
  | some b => b
  | none => dflt

/-- The error-translation core of RequestsClient.request (client.py lines 226-239) and of
AsyncRequestsClient.request (async_client.py lines 186-202), which share this logic verbatim:
with a factory configured, a transport exception is wrapped as exc(e, url) and a 4xx/5xx
response is wrapped as exc(resp, url) when raise_on_code holds; without a factory the
transport exception propagates unchanged and raise_on_code defers to raise_for_status. -/
def requestDispatch (excConfigured : Bool) (raiseOnCode : Bool) (url : String)
    (outcome : DispatchOutcome) : RequestResult :=
  if excConfigured then
    match outcome with
    | DispatchOutcome.error e => RequestResult.excRaised (Cause.failure e) url
    | DispatchOutcome.success s =>
      if raiseOnCode ∧ 400 ≤ s ∧ s < 600 then RequestResult.excRaised (Cause.response s) url
      else RequestResult.ok s
  else
    match outcome with
    | DispatchOutcome.error e => RequestResult.nativeError e
    | DispatchOutcome.success s =>
      if raiseOnCode then raise_for_status s url else RequestResult.ok s

/-- RequestsClient._log_req (client.py lines 182-187): the record text is METHOD -> url,
where the url is re-resolved with the query params exactly when params is truthy and the
resolved log_params flag holds; _log_req re-reads the _url_fmt cache its caller has already
populated, so only the record text is returned here. -/
def log_req (c : ClientState) (method url path : String) (relative : Bool)
    (params : List (String × String)) (log_params : Option Bool) : String :=
  let url :=
    if params ≠ [] ∧ resolveOverride log_params c.logParams then
      (RequestsClient.url_for c path params relative).1
    else url
  method ++ " -> " ++ url

/-- RequestsClient.request (client.py lines 189-239) with the transport call abstracted by its
outcome: build the url without params, emit the log record when log is true, resolve
raise_on_code, then run the error-translation core.  Returns the call result, the emitted log
records and the updated client state. -/
def RequestsClient.request (c : ClientState) (method path : String) (relative : Bool)
    (raise_errors : Option Bool) (log : Bool) (log_params : Option Bool)
    (params : List (String × String)) (outcome : DispatchOutcome) :
    RequestResult × List String × ClientState :=
  let r := RequestsClient.url_for c path [] relative
  let url := r.1
  let c1 := r.2
  let records := if log then [log_req c1 method url path relative params log_params] else []
  let roc := resolveOverride raise_errors c1.raiseErrors
  (requestDispatch c1.excConfigured roc url outcome, records, c1)

/-- Observable events of one pass through a rate-limit gate, with times and durations as
rationals on the monotonic clock: a sleep of the given length, a write of the given value to
the stored last-call timestamp, and the invocation of the wrapped operation. -/
inductive RLEvent
  | wait (w : ℚ)
  | update (v : ℚ)
  | invoke
deriving DecidableEq

/-- One call through the wrapper produced by rate_limited(interval) (utils.py lines 80-100)
for a constant interval, idealizing sleep(w) as advancing the monotonic clock by exactly w:
last_call is the stored timestamp and t the monotonic time on entry.  The wrapped function is
invoked after last_call is written, so the events do not depend on whether it then fails. -/
def rateLimitedEvents (interval last_call t : ℚ) : List RLEvent :=
  let elapsed := t - last_call
  if elapsed < interval then
    [RLEvent.wait (interval - elapsed), RLEvent.update (t + (interval - elapsed)), RLEvent.invoke]
  else
    [RLEvent.update t, RLEvent.invoke]

/-- Rate-limit bookkeeping of one AsyncRequestsClient.request call (async_client.py lines
176-201), idealized the same way: the wait (when the configured rate_limit is truthy and the
remaining wait is positive) happens before the dispatch, but _last_req is written in a finally
block only after the dispatched call returns or raises; d is the duration of the dispatch and
failed records whether it raised, which the emitted events provably do not depend on. -/
def asyncRequestEvents (rate_limit last_req t d : ℚ) (failed : Bool) : List RLEvent :=
  if rate_limit ≠ 0 then
    let elapsed := t - last_req
    let wait := rate_limit - elapsed
    if 0 < wait then
      [RLEvent.wait wait, RLEvent.invoke, RLEvent.update (t + wait + d)]
    else
      [RLEvent.invoke, RLEvent.update (t + d)]
  else
    [RLEvent.invoke, RLEvent.update (t + d)]

/-- Whether some timestamp update happens strictly after some invocation of the wrapped
operation in the event list. -/
def updateAfterInvoke : List RLEvent → Bool
  | [] => false
  | RLEvent.invoke :: rest =>
    rest.any (fun e => match e with | RLEvent.update _ => true | _ => false) || updateAfterInvoke rest
  | _ :: rest => updateAfterInvoke rest

/-- State of the shared-scope session slot of a RequestsClient (client.py: the private
__session attribute, the finalizer registered in __init__ and _init_session, and the close /
__close methods).  Sessions are identified by the order of their creation; closeLog records,
in order, every session identity whose close() hook was invoked. -/
structure SessionState where
  session : Option Nat
  nextId : Nat
  finalizerAlive : Bool
  closeLog : List Nat
deriving DecidableEq

/-- RequestsClient._init_session (client.py lines 145-152): build a fresh session via
session_fn and re-register the finalizer when a prior close detached it.  Returns the new
state and the created session. -/
def SessionState.initSession (s : SessionState) : SessionState × Nat :=
  ({ s with nextId := s.nextId + 1, finalizerAlive := true }, s.nextId)

/-- The session property getter under the shared lock (client.py lines 162-166): create the
session on first use, else return the existing one. -/
def SessionState.getSession (s : SessionState) : SessionState × Nat :=
  match s.session with
  | some id => (s, id)
  | none =>
    let r := s.initSession
    ({ r.1 with session := some r.2 }, r.2)

/-- RequestsClient.__close (client.py lines 261-267) in shared scope: close the session if it
exists and empty the slot; a missing session is a no-op. -/
def SessionState.closePrivate (s : SessionState) : SessionState :=
  match s.session with
  | some id => { s with session := none, closeLog := s.closeLog ++ [id] }
  | none => s

/-- RequestsClient.close (client.py lines 249-256): detach the finalizer and, only when it was
still alive, run __close; a second call finds the finalizer already detached and does
nothing. -/
def SessionState.close (s : SessionState) : SessionState :=
  if s.finalizerAlive then SessionState.closePrivate { s with finalizerAlive := false } else s

/-- Error-translation policy exactly as the specification words it, for comparison with the
code-derived requestDispatch: a transport failure is wrapped by the factory when one is
configured and otherwise propagates; a response with status in [400, 600) raises through the
factory or natively when the resolved raise flag holds; in all other cases the response is
returned. -/
def dispatchSpec (excConfigured : Bool) (raise_errors : Option Bool) (raiseDflt : Bool)
    (url : String) (outcome : DispatchOutcome) : RequestResult :=
  match outcome with
  | DispatchOutcome.error e =>
    if excConfigured then RequestResult.excRaised (Cause.failure e) url
    else RequestResult.nativeError e
  | DispatchOutcome.success s =>
    if resolveOverride raise_errors raiseDflt ∧ 400 ≤ s ∧ s < 600 then
      if excConfigured then RequestResult.excRaised (Cause.response s) url
      else RequestResult.httpError s url
    else RequestResult.ok s

/-- Log-record policy exactly as the specification words it, for comparison with the records
emitted by the code-derived RequestsClient.request: nothing when log is false, else one record
METHOD -> url, where the url carries the encoded query string exactly when params are supplied
and the resolved log_params flag holds. -/
def logRecordsSpec (c : ClientState) (method path : String) (relative : Bool)
    (params : List (String × String)) (log : Bool) (log_params : Option Bool) : List String :=
  if log then
    let base := (RequestsClient.url_for c path [] relative).1
    if params ≠ [] ∧ resolveOverride log_params c.logParams then
      [method ++ " -> " ++ base ++ "?" ++ urlencode params]
    else
      [method ++ " -> " ++ base]
  else []

/-- Path-prefix normalization exactly as the specification words it, for comparison with the
code-derived format_path_pfx: a falsy value is stored as the empty string, one leading slash
is stripped, and a trailing slash is appended unless already present. -/
def pathPfxSpec (value : Option String) : String :=
  match value with
  | none => ""
  | some v =>
    if v = "" then ""
    else
      let stripped := if strStartsWith v "/" then strDrop v 1 else v
      stripped ++ (if strEndsWith stripped "/" then "" else "/")

/-- The _url_fmt cache is either absent or holds exactly the value the cached property would
compute from the current scheme, host and port.  Every state the embedded constructor or a
UrlPart write produces satisfies this; it is the standing hypothesis of the cache claims. -/
def cacheConsistent (c : ClientState) : Prop :=
  c.urlFmtCache = none ∨ c.urlFmtCache = some (computeUrlFmt c)

theorem getUrlFmt_fst (c : ClientState) (h : cacheConsistent c) :
    (getUrlFmt c).1 = computeUrlFmt c := by
  rcases h with h | h <;> simp [getUrlFmt, h]

theorem getUrlFmt_snd_scheme (c : ClientState) : ((getUrlFmt c).2).scheme = c.scheme := by
  cases h : c.urlFmtCache <;> simp [getUrlFmt, h]

theorem getUrlFmt_snd_host (c : ClientState) : ((getUrlFmt c).2).host = c.host := by
  cases h : c.urlFmtCache <;> simp [getUrlFmt, h]

theorem getUrlFmt_snd_port (c : ClientState) : ((getUrlFmt c).2).port = c.port := by
  cases h : c.urlFmtCache <;> simp [getUrlFmt, h]

theorem getUrlFmt_snd_pathPfx (c : ClientState) : ((getUrlFmt c).2).pathPfx = c.pathPfx := by
  cases h : c.urlFmtCache <;> simp [getUrlFmt, h]

theorem getUrlFmt_snd_raiseErrors (c : ClientState) :
    ((getUrlFmt c).2).raiseErrors = c.raiseErrors := by
  cases h : c.urlFmtCache <;> simp [getUrlFmt, h]

theorem getUrlFmt_snd_logParams (c : ClientState) :
    ((getUrlFmt c).2).logParams = c.logParams := by
  cases h : c.urlFmtCache <;> simp [getUrlFmt, h]

theorem getUrlFmt_snd_excConfigured (c : ClientState) :
    ((getUrlFmt c).2).excConfigured = c.excConfigured := by
  cases h : c.urlFmtCache <;> simp [getUrlFmt, h]

theorem computeUrlFmt_getUrlFmt_snd (c : ClientState) :
    computeUrlFmt ((getUrlFmt c).2) = computeUrlFmt c := by
  cases h : c.urlFmtCache <;> simp [getUrlFmt, h, computeUrlFmt]

theorem getUrlFmt_getUrlFmt (c : ClientState) :
    getUrlFmt ((getUrlFmt c).2) = ((getUrlFmt c).1, (getUrlFmt c).2) := by
  cases h : c.urlFmtCache <;> simp [getUrlFmt, h]

theorem getUrlFmt_snd_consistent (c : ClientState) (h : cacheConsistent c) :
    cacheConsistent ((getUrlFmt c).2) := by
  rcases h with h | h <;>
    simp [getUrlFmt, h, cacheConsistent, computeUrlFmt]

theorem url_for_snd (c : ClientState) (path : String) (params : List (String × String))
    (relative : Bool) :
    (RequestsClient.url_for c path params relative).2 = (getUrlFmt c).2 := by
  simp [RequestsClient.url_for]

theorem url_for_params_append (c : ClientState) (path : String)
    (params : List (String × String)) (relative : Bool) (h : params ≠ []) :
    (RequestsClient.url_for c path params relative).1
      = (RequestsClient.url_for c path [] relative).1 ++ "?" ++ urlencode params := by
  simp [RequestsClient.url_for, h]

theorem url_for_stable (c : ClientState) (path path2 : String)
    (params params2 : List (String × String)) (relative relative2 : Bool) :
    RequestsClient.url_for ((RequestsClient.url_for c path params relative).2) path2 params2 relative2
      = ((RequestsClient.url_for c path2 params2 relative2).1, (RequestsClient.url_for c path params relative).2) := by
  simp [RequestsClient.url_for, getUrlFmt_getUrlFmt, getUrlFmt_snd_pathPfx]

theorem query_append_ne (s t : String) : s ≠ s ++ "?" ++ t := by
  intro h
  have hlen := congrArg String.length h
  rw [String.length_append, String.length_append] at hlen
  have hq : ("?" : String).length = 1 := rfl
  omega

/-- C1: for every dispatched request, a transport-level failure is re-raised as exc(cause,
url) exactly when a factory is configured and otherwise propagates unchanged; a successful
dispatch with status in [400, 600) raises exc(response, url) with a factory, or the native
raise_for_status error without one, exactly when the resolved raise flag (per-call override,
else client default) holds; in every other case the response is returned.  Stated as equality
between the code-derived dispatch core and the error-translation policy as the specification
words it, over all configurations and outcomes. -/
theorem claim_C1_error_translation (excConfigured : Bool) (raise_errors : Option Bool)
    (raiseDflt : Bool) (url : String) (outcome : DispatchOutcome) :
    requestDispatch excConfigured (resolveOverride raise_errors raiseDflt) url outcome
      = dispatchSpec excConfigured raise_errors raiseDflt url outcome := by
  cases outcome with
  | error e => cases excConfigured <;> simp [requestDispatch, dispatchSpec]
  | success s =>
    cases excConfigured <;>
      simp only [requestDispatch, dispatchSpec, raise_for_status] <;>
      split_ifs <;> simp_all

/-- C8: for every request with log true, the emitted record text is METHOD -> url with the
query string included when params are supplied and the resolved log_params flag (per-call
override, else client default) holds, METHOD -> url without the query string when the resolved
flag is false, and with log false no record is emitted at all.  Stated as equality between the
records the code-derived request emits and the logging policy as the specification words it. -/
theorem claim_C8_log_records (c : ClientState) (method path : String) (relative : Bool)
    (raise_errors : Option Bool) (lg : Bool) (log_params : Option Bool)
    (params : List (String × String)) (outcome : DispatchOutcome) :
    (RequestsClient.request c method path relative raise_errors lg log_params params outcome).2.1
      = logRecordsSpec c method path relative params lg log_params := by
  cases lg with
  | false => simp [RequestsClient.request, logRecordsSpec]
  | true =>
    simp only [RequestsClient.request, logRecordsSpec, log_req, if_true]
    by_cases hp : params = []
    · simp [hp]
    · by_cases hlp : resolveOverride log_params c.logParams = true
      · rw [url_for_snd]
        simp only [hp, hlp, getUrlFmt_snd_logParams, ne_eq, not_false_eq_true, true_and, if_true]
        have h1 :
            RequestsClient.url_for ((getUrlFmt c).2) path params relative
              = ((RequestsClient.url_for c path params relative).1, (getUrlFmt c).2) := by
          have := url_for_stable c path path [] params relative relative
          rw [url_for_snd] at this
          exact this
        rw [h1, url_for_params_append c path params relative hp]
        simp [String.append_assoc]
      · rw [url_for_snd]
        simp [hp, hlp, getUrlFmt_snd_logParams]

theorem requestDispatch_excRaised_url (excConfigured raiseOnCode : Bool) (url : String)
    (outcome : DispatchOutcome) (cause : Cause) (u : String)
    (h : requestDispatch excConfigured raiseOnCode url outcome = RequestResult.excRaised cause u) :
    u = url := by
  cases outcome <;> cases excConfigured <;>
    simp only [requestDispatch, raise_for_status] at h <;>
    split_ifs at h <;> simp_all

/-- C9 (implicit): for every request carrying query params, the url handed to a configured
error factory, whether wrapping a transport failure or a 4xx/5xx response, is the composed URL
built without the query parameters, and when params are non-empty it differs from the
params-carrying URL (the transport encodes the params separately). -/
theorem claim_C9_error_url_has_no_params (c : ClientState) (method path : String)
    (relative : Bool) (raise_errors : Option Bool) (lg : Bool) (log_params : Option Bool)
    (params : List (String × String)) (outcome : DispatchOutcome) (cause : Cause) (u : String)
    (h : (RequestsClient.request c method path relative raise_errors lg log_params params outcome).1
          = RequestResult.excRaised cause u) :
    u = (RequestsClient.url_for c path [] relative).1
    ∧ (params ≠ [] → u ≠ (RequestsClient.url_for c path params relative).1) := by
  simp only [RequestsClient.request] at h
  have hu := requestDispatch_excRaised_url _ _ _ _ _ _ h
  refine ⟨hu, fun hp hne => ?_⟩
  rw [hu, url_for_params_append c path params relative hp] at hne
  exact query_append_ne _ _ hne

/-- Closed instance of claim_C9_error_url_has_no_params: a transport failure on a GET with one
query param, against a plain localhost client with an error factory configured, is wrapped
with the params-free URL. -/
theorem claim_C9_witness :
    "http://localhost/test"
        = (RequestsClient.url_for
            { scheme := "http", host := some "localhost", port := none, pathPfx := "",
              raiseErrors := true, logParams := true, excConfigured := true,
              urlFmtCache := none } "test" [] true).1
    ∧ ([(("a", "1") : String × String)] ≠ [] →
        "http://localhost/test"
          ≠ (RequestsClient.url_for
              { scheme := "http", host := some "localhost", port := none, pathPfx := "",
                raiseErrors := true, logParams := true, excConfigured := true,
                urlFmtCache := none } "test" [("a", "1")] true).1) :=
  claim_C9_error_url_has_no_params
    { scheme := "http", host := some "localhost", port := none, pathPfx := "",
      raiseErrors := true, logParams := true, excConfigured := true, urlFmtCache := none }
    "GET" "test" true none true none [("a", "1")] (DispatchOutcome.error 0)
    (Cause.failure 0) "http://localhost/test" (by decide)

/-- The base URL shape named by the claims: scheme://host[:port]/pathPrefix with the port
segment present exactly when a port is set. -/
def specBaseUrl (scheme host : String) (port : Option Int) (pfx : String) : String :=
  scheme ++ "://" ++ host
    ++ (match port with
        | some p => ":" ++ intToStr p
        | none => "")
    ++ "/" ++ pfx

theorem url_for_empty_spec (c : ClientState) (host : String) (hcache : cacheConsistent c)
    (hhost : c.host = some host)
    (hport : c.port = none ∨ ∃ p : Int, c.port = some p ∧ 0 < p) :
    (RequestsClient.url_for c "" [] true).1 = specBaseUrl c.scheme host c.port c.pathPfx := by
  have hs : strStartsWith "" "/" = false := by decide
  have hfst := getUrlFmt_fst c hcache
  rcases hport with hport | ⟨p, hport, hpos⟩
  · simp [RequestsClient.url_for, hs, hfst, getUrlFmt_snd_pathPfx, computeUrlFmt, specBaseUrl,
      hostStr, hhost, hport, String.append_assoc, String.append_empty]
  · simp [RequestsClient.url_for, hs, hfst, getUrlFmt_snd_pathPfx, computeUrlFmt, specBaseUrl,
      hostStr, hhost, hport, String.append_assoc, String.append_empty, Int.ne_of_gt hpos]

/-- C3: for a client with valid fields, url_for of the empty path with relative true is
exactly scheme://host[:port]/pathPrefix computed from the current field values (port segment
present exactly when a port is set); repeated calls return the same value; and after a
post-construction write to port, scheme or host through its UrlPart descriptor the cached
base-URL format is invalidated, so the next call reflects the new value. -/
theorem claim_C3_base_url_cache (c : ClientState) (host : String)
    (hcache : cacheConsistent c) (hhost : c.host = some host)
    (hport : c.port = none ∨ ∃ p : Int, c.port = some p ∧ 0 < p) :
    (RequestsClient.url_for c "" [] true).1 = specBaseUrl c.scheme host c.port c.pathPfx
    ∧ (RequestsClient.url_for (RequestsClient.url_for c "" [] true).2 "" [] true).1
        = (RequestsClient.url_for c "" [] true).1
    ∧ (∀ p : Int, 0 < p →
        (RequestsClient.url_for (setPort (RequestsClient.url_for c "" [] true).2 (some p)) "" [] true).1
          = specBaseUrl c.scheme host (some p) c.pathPfx)
    ∧ (∀ s : String,
        (RequestsClient.url_for (setScheme (RequestsClient.url_for c "" [] true).2 s) "" [] true).1
          = specBaseUrl s host c.port c.pathPfx)
    ∧ (∀ h2 : String,
        (RequestsClient.url_for (setHost (RequestsClient.url_for c "" [] true).2 (some h2)) "" [] true).1
          = specBaseUrl c.scheme h2 c.port c.pathPfx) := by
  refine ⟨url_for_empty_spec c host hcache hhost hport, ?_, ?_, ?_, ?_⟩
  · have := url_for_stable c "" "" [] [] true true
    rw [this]
  · intro p hp
    rw [url_for_snd]
    have h := url_for_empty_spec (setPort ((getUrlFmt c).2) (some p)) host (Or.inl rfl)
      (by simp [setPort, getUrlFmt_snd_host, hhost]) (Or.inr ⟨p, rfl, hp⟩)
    simpa [setPort, getUrlFmt_snd_scheme, getUrlFmt_snd_pathPfx] using h
  · intro s
    rw [url_for_snd]
    have h := url_for_empty_spec (setScheme ((getUrlFmt c).2) s) host (Or.inl rfl)
      (by simp [setScheme, getUrlFmt_snd_host, hhost])
      (by simpa [setScheme, getUrlFmt_snd_port] using hport)
    simpa [setScheme, getUrlFmt_snd_port, getUrlFmt_snd_pathPfx] using h
  · intro h2
    rw [url_for_snd]
    have h := url_for_empty_spec (setHost ((getUrlFmt c).2) (some h2)) h2 (Or.inl rfl)
      (by simp [setHost])
      (by simpa [setHost, getUrlFmt_snd_port] using hport)
    simpa [setHost, getUrlFmt_snd_scheme, getUrlFmt_snd_port, getUrlFmt_snd_pathPfx] using h

/-- Closed instance of claim_C3_base_url_cache: the base URL of a https client on port 1234
with prefix api/v1/, and the effect of mutating the port to 3456 afterwards. -/
theorem claim_C3_witness :
    ((RequestsClient.url_for
        { scheme := "https", host := some "localhost", port := some 1234, pathPfx := "api/v1/",
          raiseErrors := true, logParams := true, excConfigured := false,
          urlFmtCache := none } "" [] true).1
      = specBaseUrl "https" "localhost" (some 1234) "api/v1/")
    ∧ ((RequestsClient.url_for
          (setPort
            (RequestsClient.url_for
              { scheme := "https", host := some "localhost", port := some 1234, pathPfx := "api/v1/",
                raiseErrors := true, logParams := true, excConfigured := false,
                urlFmtCache := none } "" [] true).2 (some 3456)) "" [] true).1
        = specBaseUrl "https" "localhost" (some 3456) "api/v1/")
    ∧ specBaseUrl "https" "localhost" (some 3456) "api/v1/" = "https://localhost:3456/api/v1/" := by
  have h := claim_C3_base_url_cache
    { scheme := "https", host := some "localhost", port := some 1234, pathPfx := "api/v1/",
      raiseErrors := true, logParams := true, excConfigured := false, urlFmtCache := none }
    "localhost" (Or.inl rfl) rfl (Or.inr ⟨1234, rfl, by decide⟩)
  exact ⟨h.1, h.2.2.1 3456 (by decide), by decide⟩

/-- The client built by RequestsClient("localhost"): http scheme, no port, empty prefix. -/
def localhostClient : ClientState :=
  { scheme := "http", host := some "localhost", port := none, pathPfx := "",
    raiseErrors := true, logParams := true, excConfigured := false, urlFmtCache := none }

/-- Counterexample to C4: RequestsClient.url_for (the synchronous client, cited by the claim)
has no absolute-URL passthrough, so on a client built as RequestsClient("localhost") a path
already beginning with http:// is not returned unchanged with relative false; it is embedded
after the client base URL instead. -/
theorem claim_C4_counterexample :
    initClient "localhost" none none none true false true false = Except.ok localhostClient
    ∧ (RequestsClient.url_for localhostClient "http://example.com/a" [] false).1
        = "http://localhost/http://example.com/a"
    ∧ (RequestsClient.url_for localhostClient "http://example.com/a" [] false).1
        ≠ "http://example.com/a" :=
  ⟨rfl, by decide, by decide⟩

/-- C4 as amended: the absolute-URL passthrough holds of BaseClient.url_for (the version the
asynchronous client uses): with relative false and a path beginning with http:// or https://,
the path itself is returned unchanged as the base, untouched client state included, with ?
plus the encoded query string appended exactly when params is non-empty.  RequestsClient.url_for
lacks the branch and embeds such a path after the client base URL (see the counterexample). -/
theorem claim_C4_absolute_path (c : ClientState) (path : String)
    (params : List (String × String))
    (h : strStartsWith path "http://" = true ∨ strStartsWith path "https://" = true) :
    BaseClient.url_for c path params false
      = ((if params ≠ [] then path ++ "?" ++ urlencode params else path), c) := by
  simp [BaseClient.url_for, h]

/-- Closed instance of claim_C4_absolute_path: an absolute URL with one query param passes
through BaseClient.url_for unchanged, the param appended. -/
theorem claim_C4_witness :
    BaseClient.url_for localhostClient "http://example.com/a" [("a", "1")] false
      = ("http://example.com/a?a=1", localhostClient) := by
  rw [claim_C4_absolute_path localhostClient "http://example.com/a" [("a", "1")]
    (Or.inl (by decide))]
  decide

/-- C5: constructing with a host_or_url that does not begin with a scheme but contains a
colon, together with a truthy explicit port argument, fails with the ValueError rather than
succeeding. -/
theorem claim_C5_conflicting_port (host_or_url : String) (p : Int)
    (scheme ppfx : Option String) (raise_errors excConfigured log_params nopath : Bool)
    (hre : matchesSchemeRe host_or_url = false)
    (hc : strContains host_or_url ':' = true) (hp : p ≠ 0) :
    ∃ msg, initClient host_or_url (some p) scheme ppfx raise_errors excConfigured log_params nopath
      = Except.error msg := by
  have hne : host_or_url ≠ "" := by
    intro h
    rw [h] at hc
    simp [strContains] at hc
  have herr : initClient host_or_url (some p) scheme ppfx raise_errors excConfigured log_params nopath
      = Except.error ("Conflicting arguments: port provided twice (host_or_url=" ++ host_or_url ++ ")") := by
    simp [initClient, hre, hne, hc, pyTruthyPort, hp]
  exact ⟨_, herr⟩

/-- Closed instance of claim_C5_conflicting_port: RequestsClient("localhost:1234", port=3456)
fails. -/
theorem claim_C5_witness :
    ∃ msg, initClient "localhost:1234" (some 3456) none none true false true false
      = Except.error msg :=
  claim_C5_conflicting_port "localhost:1234" 3456 none none true false true false
    (by decide) (by decide) (by decide)

/-- C6: constructing with the URL https://localhost:1234/test yields scheme https, host
localhost, port 1234 and path_prefix test/; and every value written to path_prefix, by the
constructor or by a later descriptor write, is stored as format_path_prefix of the value,
which agrees everywhere with the normalization as the specification words it (one leading
slash stripped, a trailing slash appended unless present, a falsy value stored as the empty
string).  Reads return the stored field unchanged, so the normalization happens exactly once,
on write. -/
theorem claim_C6_url_parse_and_pfx_normalization :
    initClient "https://localhost:1234/test" none none none true false true false
      = Except.ok
          { scheme := "https", host := some "localhost", port := some 1234,
            pathPfx := "test/", raiseErrors := true, logParams := true,
            excConfigured := false, urlFmtCache := none }
    ∧ (∀ (c : ClientState) (v : Option String), (setPathPfx c v).pathPfx = format_path_pfx v)
    ∧ (∀ v : Option String, format_path_pfx v = pathPfxSpec v) := by
  refine ⟨rfl, fun c v => rfl, fun v => ?_⟩
  match v with
  | none => rfl
  | some s =>
    simp only [format_path_pfx, pathPfxSpec]
    split_ifs with h1 h2 <;> simp [String.append_empty]

theorem matchesSchemeRe_ne_empty (s : String) (h : matchesSchemeRe s = true) : s ≠ "" := by
  intro he
  rw [he] at h
  simp [matchesSchemeRe, strTakeWhile] at h

/-- C10 (implicit): a host_or_url that begins with a scheme is parsed as a URL even when it
carries its own port, and additionally supplying a truthy explicit port argument does not
fail: construction succeeds, the explicit port wins over the parsed one, a truthy explicit
scheme wins over the parsed scheme, a truthy explicit path_prefix wins over the parsed path,
and the host comes from the parsed hostname. -/
theorem claim_C10_explicit_args_win (host_or_url : String) (p : Int)
    (scheme ppfx : Option String) (raise_errors excConfigured log_params nopath : Bool)
    (hre : matchesSchemeRe host_or_url = true)
    (hurlport : (pyUrlparse host_or_url).port.isSome = true)
    (hp : p ≠ 0) :
    ∃ c, initClient host_or_url (some p) scheme ppfx raise_errors excConfigured log_params nopath
        = Except.ok c
      ∧ c.port = some p
      ∧ (∀ s, scheme = some s → s ≠ "" → c.scheme = s)
      ∧ (∀ q, ppfx = some q → q ≠ "" → c.pathPfx = format_path_pfx (some q))
      ∧ c.host = (pyUrlparse host_or_url).hostname := by
  have hne := matchesSchemeRe_ne_empty host_or_url hre
  have hok : initClient host_or_url (some p) scheme ppfx raise_errors excConfigured log_params nopath
      = Except.ok (finishInit
          (setHost
            { scheme := "", host := none, port := none, pathPfx := "",
              raiseErrors := raise_errors, logParams := log_params,
              excConfigured := excConfigured, urlFmtCache := none }
            (pyUrlparse host_or_url).hostname)
          (strOr scheme (some (pyUrlparse host_or_url).scheme))
          (intOr (some p) (pyUrlparse host_or_url).port)
          (if nopath then ppfx else strOr ppfx (some (pyUrlparse host_or_url).path))) := by
    simp [initClient, hre, hne]
  refine ⟨_, hok, ?_, ?_, ?_, ?_⟩
  · simp [finishInit, setPathPfx, setPort, setScheme, setHost, intOr, hp]
  · intro s hs hsne
    simp [finishInit, setPathPfx, setPort, setScheme, setHost, hs, strOr, hsne]
  · intro q hq hqne
    cases nopath <;>
      simp [finishInit, setPathPfx, setPort, setScheme, setHost, hq, strOr, hqne]
  · simp [finishInit, setPathPfx, setPort, setScheme, setHost]

/-- Closed instance of claim_C10_explicit_args_win: RequestsClient with a URL carrying port
1234 plus explicit port 3456 succeeds and stores port 3456. -/
theorem claim_C10_witness :
    ∃ c, initClient "https://localhost:1234/test" (some 3456) none none true false true false
        = Except.ok c
      ∧ c.port = some 3456
      ∧ (∀ s, (none : Option String) = some s → s ≠ "" → c.scheme = s)
      ∧ (∀ q, (none : Option String) = some q → q ≠ "" → c.pathPfx = format_path_pfx (some q))
      ∧ c.host = (pyUrlparse "https://localhost:1234/test").hostname :=
  claim_C10_explicit_args_win "https://localhost:1234/test" 3456 none none true false true false
    (by decide) (by decide) (by decide)

/-- Counterexample to C2: the claim requires the last-call timestamp of every rate-limited
dispatch to be written after any wait and before the wrapped operation is invoked, but in the
asynchronous client a dispatch under a positive rate limit 1 with zero elapsed time performs
the wait, invokes the dispatch, and only then (in the finally block) writes the timestamp:
the update event comes after the invoke event. -/
theorem claim_C2_counterexample :
    asyncRequestEvents 1 0 0 0 true = [RLEvent.wait 1, RLEvent.invoke, RLEvent.update 1]
    ∧ updateAfterInvoke [RLEvent.wait 1, RLEvent.invoke, RLEvent.update 1] = true := by
  refine ⟨?_, by simp [updateAfterInvoke]⟩
  norm_num [asyncRequestEvents]

/-- C2 as amended: under a positive interval R with elapsed time t - L below R, both gates
wait exactly R minus the elapsed time; the synchronous rate_limited wrapper then writes the
timestamp (to the post-wait current time) before invoking the wrapped function,
unconditionally, while the asynchronous client invokes the dispatch first and writes the
timestamp in a finally block afterwards, equally unconditionally on failure. -/
theorem claim_C2_rate_limit_gate (R L t d : ℚ) (hR : 0 < R) (hlt : t - L < R) :
    rateLimitedEvents R L t
        = [RLEvent.wait (R - (t - L)), RLEvent.update (t + (R - (t - L))), RLEvent.invoke]
    ∧ (∀ failed : Bool, asyncRequestEvents R L t d failed
        = [RLEvent.wait (R - (t - L)), RLEvent.invoke, RLEvent.update (t + (R - (t - L)) + d)])
    ∧ (∀ d2 : ℚ, asyncRequestEvents R L t d2 true = asyncRequestEvents R L t d2 false) := by
  have hRne : R ≠ 0 := ne_of_gt hR
  have hw : (0 : ℚ) < R - (t - L) := by linarith
  refine ⟨by simp [rateLimitedEvents, hlt], fun failed => ?_, fun d2 => rfl⟩
  simp [asyncRequestEvents, hRne, hw]

/-- Closed instance of claim_C2_rate_limit_gate: interval 1, last call at 0, entry at 0. -/
theorem claim_C2_witness :
    rateLimitedEvents 1 0 0 = [RLEvent.wait 1, RLEvent.update 1, RLEvent.invoke] := by
  have h := (claim_C2_rate_limit_gate 1 0 0 0 (by norm_num) (by norm_num)).1
  norm_num at h
  exact h

/-- Invariant of the embedded session slot: the current session (if any) was created before
nextId, has not had its close hook run, and is covered by a live finalizer; every id in the
close log was created before nextId.  Freshly constructed clients satisfy it, and it is
preserved by the embedded operations. -/
def SessionInv (s : SessionState) : Prop :=
  (∀ id, s.session = some id → id < s.nextId ∧ id ∉ s.closeLog ∧ s.finalizerAlive = true)
  ∧ (∀ id ∈ s.closeLog, id < s.nextId)

/-- C7: close is idempotent (a second close finds the finalizer detached and does nothing,
and closing with no session touches nothing, so neither can fail); after an explicit close,
the next session access creates a session distinct from the pre-close one, and the pre-close
session's close hook was invoked exactly once. -/
theorem claim_C7_close_lifecycle (s : SessionState) (hinv : SessionInv s) :
    SessionState.close (SessionState.close s) = SessionState.close s
    ∧ (s.session = none → (SessionState.close s).closeLog = s.closeLog)
    ∧ (SessionState.getSession (SessionState.close (SessionState.getSession s).1)).2
        ≠ (SessionState.getSession s).2
    ∧ (SessionState.close (SessionState.getSession s).1).closeLog.count
        (SessionState.getSession s).2 = 1 := by
  obtain ⟨h1, h2⟩ := hinv
  refine ⟨?_, ?_, ?_, ?_⟩
  · by_cases ha : s.finalizerAlive <;>
      cases hs : s.session <;>
        simp [SessionState.close, SessionState.closePrivate, ha, hs]
  · intro hs
    by_cases ha : s.finalizerAlive <;>
      simp [SessionState.close, SessionState.closePrivate, ha, hs]
  · cases hs : s.session with
    | none =>
      simp [SessionState.getSession, SessionState.initSession, SessionState.close,
        SessionState.closePrivate, hs]
    | some id0 =>
      have hid := h1 id0 hs
      simp [SessionState.getSession, SessionState.initSession, SessionState.close,
        SessionState.closePrivate, hs, hid.2.2]
      omega
  · cases hs : s.session with
    | none =>
      have hnm : s.nextId ∉ s.closeLog := fun hmem => absurd (h2 _ hmem) (by omega)
      simp [SessionState.getSession, SessionState.initSession, SessionState.close,
        SessionState.closePrivate, hs, List.count_append,
        List.count_eq_zero_of_not_mem hnm]
    | some id0 =>
      have hid := h1 id0 hs
      simp [SessionState.getSession, SessionState.initSession, SessionState.close,
        SessionState.closePrivate, hs, hid.2.2, List.count_append,
        List.count_eq_zero_of_not_mem hid.2.1]

/-- Closed instance of claim_C7_close_lifecycle at a freshly constructed client (no session,
live finalizer, empty close log). -/
theorem claim_C7_witness :
    (SessionState.getSession (SessionState.close
        (SessionState.getSession
          { session := none, nextId := 0, finalizerAlive := true, closeLog := [] }).1)).2
      ≠ (SessionState.getSession
          { session := none, nextId := 0, finalizerAlive := true, closeLog := [] }).2
    ∧ (SessionState.close
        (SessionState.getSession
          { session := none, nextId := 0, finalizerAlive := true, closeLog := [] }).1).closeLog.count
        (SessionState.getSession
          { session := none, nextId := 0, finalizerAlive := true, closeLog := [] }).2 = 1 := by
  have h := claim_C7_close_lifecycle
    { session := none, nextId := 0, finalizerAlive := true, closeLog := [] }
    (by simp [SessionInv])
  exact ⟨h.2.2.1, h.2.2.2⟩
